import Mathlib

/-!
Verification of the Bitzapp hybrid intent-classification and command-dispatch
pipeline, shallowly embedded from the Python source:

- `chatbot/intent_classifier.py` — `IntentClassifier` (pattern table, regex
  classifier, slash-command parser, Gemini fallback, orchestrator);
- `chatbot/services.py` — greeting handling and canned chat responses of
  `AIChatbotService`;
- `core/views.py` — `process_command`, the webhook command dispatcher.

Modelling conventions: Python strings are Lean `String`s manipulated through
their character lists; Python float values are `PyFloat` (an exact rational,
`inf`, `-inf` or `nan`), with string conversion following the full `float()`
grammar; fallible Python code is total with explicit
`Option`/`Except` results, a `.error`/`none` standing for a raised exception at
the `try` boundary that catches it in the source; the remote Gemini HTTP call
and the JSON decoder are abstract parameters (`GeminiEnv`), since their
behaviour lives outside this repository.
-/

/-! ### Character and string model

Python `str.lower`, `str.strip`, `str.split`, `str.startswith` and substring
containment, modelled on `List Char`.  Lowering is the ASCII table (the
pipeline handles ASCII text plus the naira sign `₦`, which `lower` leaves
unchanged). -/

-- Python \s (ASCII whitespace, the only whitespace reaching this code)
def pySpace (c : Char) : Bool :=
  c = ' ' || c = '\t' || c = '\n' || c = '\r' || c = '\x0b' || c = '\x0c'

-- Python regex \w : word characters, used by the \b assertion
def isWordChar (c : Char) : Bool := c.isAlphanum || c = '_'

-- ASCII lower-case table for str.lower()
def lowerMap : List (Char × Char) :=
  [('A', 'a'), ('B', 'b'), ('C', 'c'), ('D', 'd'), ('E', 'e'), ('F', 'f'),
   ('G', 'g'), ('H', 'h'), ('I', 'i'), ('J', 'j'), ('K', 'k'), ('L', 'l'),
   ('M', 'm'), ('N', 'n'), ('O', 'o'), ('P', 'p'), ('Q', 'q'), ('R', 'r'),
   ('S', 's'), ('T', 't'), ('U', 'u'), ('V', 'v'), ('W', 'w'), ('X', 'x'),
   ('Y', 'y'), ('Z', 'z')]

def pyToLower (c : Char) : Char :=
  ((lowerMap.find? (fun p => p.1 = c)).map Prod.snd).getD c

def pyLowerL (l : List Char) : List Char := l.map pyToLower

-- str.strip(): drop leading then trailing whitespace
def pyStripL (l : List Char) : List Char :=
  (((l.dropWhile pySpace).reverse.dropWhile pySpace)).reverse

def pyLower (s : String) : String := String.mk (pyLowerL s.data)

def pyStrip (s : String) : String := String.mk (pyStripL s.data)

-- s.startswith(pre)
def strStarts (s pre : String) : Bool := pre.data.isPrefixOf s.data

-- needle in haystack (Python substring containment)
def strContainsL (hay needle : List Char) : Bool :=
  (List.range (hay.length + 1)).any (fun i => needle.isPrefixOf (hay.drop i))

def strContains (hay needle : String) : Bool := strContainsL hay.data needle.data

-- str.split() with no separator: split on whitespace runs, no empty parts
def pySplitAux : List Char → List Char → List (List Char)
  | [], acc => if acc.isEmpty then [] else [acc.reverse]
  | c :: rest, acc =>
    if pySpace c then
      if acc.isEmpty then pySplitAux rest []
      else acc.reverse :: pySplitAux rest []
    else pySplitAux rest (c :: acc)

def pySplitL (l : List Char) : List (List Char) := pySplitAux l []

/-! ### Amount parsing

`IntentClassifier._extract_amount`: remove commas, convert with Python
`float`, and return `0.0` on `ValueError`/`AttributeError`.  A Python float is
a `PyFloat`: an exact rational, an infinity, or `nan`.  String conversion
implements the full `float()` grammar: surrounding whitespace is stripped, an
optional sign is followed by `inf`/`infinity`/`nan` (case-insensitive) or by a
decimal number with optional fraction, optional `e`/`E` exponent (with its own
sign), and underscores that must sit between digits.  The numeric value is
carried exactly as a rational — the binary rounding of IEEE doubles, and the
overflow/underflow of astronomically scaled literals like `1e400`, are the one
declared abstraction of this model. -/

inductive PyFloat where
  | finite (q : ℚ)
  | inf
  | neginf
  | nan
deriving DecidableEq, Repr

instance (n : Nat) : OfNat PyFloat n := ⟨PyFloat.finite n⟩

def digitsToNat (l : List Char) : Nat :=
  l.foldl (fun acc c => acc * 10 + (c.toNat - '0'.toNat)) 0

/-- A `digitpart` of the `float()` grammar: consume `digit (_? digit)*`
greedily, returning the digits (underscores dropped, reversed) and the rest.
A malformed underscore is left in the rest, where the caller's
whole-string check rejects it, exactly as `float("1_")` or `float("1__2")`
raise `ValueError`. -/
def digitsUnd : List Char → List Char → List Char × List Char
  | acc, [] => (acc, [])
  | acc, c :: rest =>
    if c.isDigit then digitsUnd (c :: acc) rest
    else if c = '_' && !acc.isEmpty then
      match rest with
      | d :: rest2 => if d.isDigit then digitsUnd (d :: acc) rest2 else (acc, c :: rest)
      | [] => (acc, c :: rest)
    else (acc, c :: rest)

-- exponent digitpart: must be non-empty and consume the entire remainder
def pyExpDigits (l : List Char) : Option Nat :=
  let p := digitsUnd [] l
  if p.1.isEmpty || !p.2.isEmpty then none else some (digitsToNat p.1.reverse)

-- exponent after the e/E: optional sign, digitpart; (negative?, magnitude)
def pyExp : List Char → Option (Bool × Nat)
  | '+' :: r => (pyExpDigits r).map (fun n => (false, n))
  | '-' :: r => (pyExpDigits r).map (fun n => (true, n))
  | r => (pyExpDigits r).map (fun n => (false, n))

-- scale a numerator/denominator pair by the ten-power exponent
def applyExp (nd : Nat × Nat) : Bool × Nat → Nat × Nat
  | (false, n) => (nd.1 * 10 ^ n, nd.2)
  | (true, n) => (nd.1, nd.2 * 10 ^ n)

/-- The number part of `float()`: `digitpart`, `digitpart . [digitpart]` or
`. digitpart`, then an optional exponent; the whole input must be consumed.
The exact decimal value is returned as a numerator/denominator pair. -/
def pyNumber (l : List Char) : Option (Nat × Nat) :=
  let ipP := digitsUnd [] l
  let ip := ipP.1.reverse
  match ipP.2 with
  | '.' :: r2 =>
    let fpP := digitsUnd [] r2
    let fp := fpP.1.reverse
    if ip.isEmpty && fp.isEmpty then none
    else
      let mant : Nat × Nat :=
        (digitsToNat ip * 10 ^ fp.length + digitsToNat fp, 10 ^ fp.length)
      match fpP.2 with
      | [] => some mant
      | c :: r4 =>
        if c = 'e' || c = 'E' then (pyExp r4).map (fun p => applyExp mant p) else none
  | c :: r2 =>
    if (c = 'e' || c = 'E') && !ip.isEmpty then
      (pyExp r2).map (fun p => applyExp (digitsToNat ip, 1) p)
    else none
  | [] => if ip.isEmpty then none else some (digitsToNat ip, 1)

-- after the optional sign: inf/infinity/nan (case-insensitive) or a number
def pyFloatBody (neg : Bool) (l : List Char) : Option PyFloat :=
  let low := pyLowerL l
  if low = "inf".data || low = "infinity".data then
    some (if neg then PyFloat.neginf else PyFloat.inf)
  else if low = "nan".data then some PyFloat.nan
  else (pyNumber l).map (fun nd =>
    PyFloat.finite (mkRat (if neg then -(nd.1 : Int) else (nd.1 : Int)) nd.2))

/-- Python `float()` on a string: strip surrounding whitespace, optional sign,
then `inf`/`infinity`/`nan` or a decimal number; `none` is `ValueError`. -/
def pyFloatOfChars (l0 : List Char) : Option PyFloat :=
  match pyStripL l0 with
  | '+' :: r => pyFloatBody false r
  | '-' :: r => pyFloatBody true r
  | l => pyFloatBody false l

-- IntentClassifier._extract_amount
def extract_amount (s : String) : PyFloat :=
  (pyFloatOfChars (s.data.filter (fun c => !(c = ',')))).getD 0

-- match.group(i) may be None; float(None) raises AttributeError, caught to 0.0
def extract_amount_opt : Option String → PyFloat
  | some s => extract_amount s
  | none => 0

/-! ### Regex engine

A backtracking matcher with Python `re` preference semantics: alternatives
tried left to right, quantifiers greedy, `re.search` returning the
leftmost-then-preferred match.  Capture groups are recorded as
`(index, start, stop)` position triples; the most recent record for an index
is its final value.  Depth of the backtracking search is bounded by a fuel
argument that is amply large for the fixed pattern table (every starred
subpattern of the table consumes at least one character per iteration). -/

inductive Re where
  | eps
  | lit (c : Char)
  | cls (p : Char → Bool)
  | seq (a b : Re)
  | alt (a b : Re)
  | star (r : Re)
  | grp (n : Nat) (r : Re)
  | bos
  | eos
  | wb

abbrev Caps := List (Nat × Nat × Nat)

-- the \b assertion at position i of s
def boundaryAt (s : List Char) (i : Nat) : Bool :=
  let before := match s.get? (i - 1) with
    | some c => if i = 0 then false else isWordChar c
    | none => false
  let after := match s.get? i with
    | some c => isWordChar c
    | none => false
  before != after

def mrun : Nat → Re → List Char → Nat → Caps → (Nat → Caps → Option Caps) → Option Caps
  | 0, _, _, _, _, _ => none
  | fuel + 1, r, s, i, caps, k =>
    match r with
    | .eps => k i caps
    | .lit c =>
      match s.get? i with
      | some c2 => if c2 = c then k (i + 1) caps else none
      | none => none
    | .cls p =>
      match s.get? i with
      | some c2 => if p c2 then k (i + 1) caps else none
      | none => none
    | .seq a b => mrun fuel a s i caps (fun j caps2 => mrun fuel b s j caps2 k)
    | .alt a b =>
      match mrun fuel a s i caps k with
      | some m => some m
      | none => mrun fuel b s i caps k
    | .star b =>
      match mrun fuel b s i caps
          (fun j caps2 => if j = i then none else mrun fuel (.star b) s j caps2 k) with
      | some m => some m
      | none => k i caps
    | .grp n b => mrun fuel b s i caps (fun j caps2 => k j ((n, i, j) :: caps2))
    | .bos => if i = 0 then k i caps else none
    | .eos => if i = s.length then k i caps else none
    | .wb => if boundaryAt s i then k i caps else none

def Re.size : Re → Nat
  | .eps | .lit _ | .cls _ | .bos | .eos | .wb => 1
  | .seq a b | .alt a b => a.size + b.size + 1
  | .star r | .grp _ r => r.size + 1

-- number of capture groups in a pattern (len(match.groups()))
def Re.numGroups : Re → Nat
  | .seq a b | .alt a b => a.numGroups + b.numGroups
  | .star r => r.numGroups
  | .grp _ r => r.numGroups + 1
  | _ => 0

-- re.search: leftmost match, Python backtracking preference at that position
def research (r : Re) (s : List Char) : Option Caps :=
  let fuel := (r.size + 2) * (s.length + 2)
  (List.range (s.length + 1)).findSome? (fun i => mrun fuel r s i [] (fun _ caps => some caps))

-- match.group(n) as a string (None when the group did not participate)
def groupStr (cs : List Char) (caps : Caps) (n : Nat) : Option String :=
  (caps.find? (fun t => t.1 = n)).map (fun t => String.mk ((cs.drop t.2.1).take (t.2.2 - t.2.1)))

/-! ### The pattern table

Each definition is the translation of one regular-expression string of
`IntentClassifier.intent_patterns`, in declaration order.  The original
pattern is quoted in the comment above each definition. -/

def rcat (l : List Re) : Re := l.foldr Re.seq Re.eps

def rstr (s : String) : Re := rcat (s.data.map Re.lit)

def ralt : List Re → Re
  | [] => Re.eps
  | [r] => r
  | r :: rest => Re.alt r (ralt rest)

def ropt (r : Re) : Re := Re.alt r Re.eps

def rplus (r : Re) : Re := Re.seq r (Re.star r)

def wsp : Re := Re.cls pySpace
def ws1 : Re := rplus wsp
def ws0 : Re := Re.star wsp
def rdigit : Re := Re.cls Char.isDigit
def digits1 : Re := rplus rdigit

-- (\d+(?:,\d{3})*(?:\.\d+)?) as capture group n
def numG (n : Nat) : Re :=
  Re.grp n (rcat [digits1,
    Re.star (rcat [Re.lit ',', rdigit, rdigit, rdigit]),
    ropt (rcat [Re.lit '.', digits1])])

-- (\d+(?:\.\d+)?) as capture group n
def numSimpleG (n : Nat) : Re :=
  Re.grp n (rcat [digits1, ropt (rcat [Re.lit '.', digits1])])

-- (?:₦|naira|ngn)?
def curPre : Re := ropt (ralt [Re.lit '₦', rstr "naira", rstr "ngn"])

-- (?:naira|ngn|₦)?
def curSuf : Re := ropt (ralt [rstr "naira", rstr "ngn", Re.lit '₦'])

-- ([a-zA-Z0-9\s]+) as capture group n
def alnumSpG (n : Nat) : Re :=
  Re.grp n (rplus (Re.cls (fun c => c.isAlphanum || pySpace c)))

-- \b(?:create|open|make|new)\s+(?:wallet|btc|bitcoin)\b
def cwP1 : Re :=
  rcat [Re.wb, ralt [rstr "create", rstr "open", rstr "make", rstr "new"], ws1,
    ralt [rstr "wallet", rstr "btc", rstr "bitcoin"], Re.wb]

-- \b(?:wallet|btc|bitcoin)\s+(?:create|open|make|new)\b
def cwP2 : Re :=
  rcat [Re.wb, ralt [rstr "wallet", rstr "btc", rstr "bitcoin"], ws1,
    ralt [rstr "create", rstr "open", rstr "make", rstr "new"], Re.wb]

-- ^/create$
def cwP3 : Re := rcat [Re.bos, rstr "/create", Re.eos]

-- \b(?:i\s+)?(?:need|want)\s+(?:a\s+)?(?:wallet|btc|bitcoin)\b
def cwP4 : Re :=
  rcat [Re.wb, ropt (rcat [rstr "i", ws1]), ralt [rstr "need", rstr "want"], ws1,
    ropt (rcat [rstr "a", ws1]), ralt [rstr "wallet", rstr "btc", rstr "bitcoin"], Re.wb]

-- \b(?:get|start)\s+(?:wallet|btc|bitcoin)\b
def cwP5 : Re :=
  rcat [Re.wb, ralt [rstr "get", rstr "start"], ws1,
    ralt [rstr "wallet", rstr "btc", rstr "bitcoin"], Re.wb]

-- \b(?:deposit|buy|add|convert|save)\s+(?:₦|naira|ngn)?\s*(\d+(?:,\d{3})*(?:\.\d+)?)\s*(?:naira|ngn|₦)?\b
def depP1 : Re :=
  rcat [Re.wb, ralt [rstr "deposit", rstr "buy", rstr "add", rstr "convert", rstr "save"],
    ws1, curPre, ws0, numG 1, ws0, curSuf, Re.wb]

-- \b(?:₦|naira|ngn)\s*(\d+(?:,\d{3})*(?:\.\d+)?)\s*(?:to\s+)?(?:bitcoin|btc)\b
def depP2 : Re :=
  rcat [Re.wb, ralt [Re.lit '₦', rstr "naira", rstr "ngn"], ws0, numG 1, ws0,
    ropt (rcat [rstr "to", ws1]), ralt [rstr "bitcoin", rstr "btc"], Re.wb]

-- \b(?:bitcoin|btc)\s+(?:with|for)\s+(?:₦|naira|ngn)?\s*(\d+(?:,\d{3})*(?:\.\d+)?)\s*(?:naira|ngn|₦)?\b
def depP3 : Re :=
  rcat [Re.wb, ralt [rstr "bitcoin", rstr "btc"], ws1, ralt [rstr "with", rstr "for"], ws1,
    curPre, ws0, numG 1, ws0, curSuf, Re.wb]

-- ^/deposit\s+(\d+(?:,\d{3})*(?:\.\d+)?)
def depP4 : Re := rcat [Re.bos, rstr "/deposit", ws1, numG 1]

-- \b(?:i\s+)?(?:want|need)\s+(?:to\s+)?(?:deposit|buy|add)\s+(?:₦|naira|ngn)?\s*(\d+(?:,\d{3})*(?:\.\d+)?)\s*(?:naira|ngn|₦)?\b
def depP5 : Re :=
  rcat [Re.wb, ropt (rcat [rstr "i", ws1]), ralt [rstr "want", rstr "need"], ws1,
    ropt (rcat [rstr "to", ws1]), ralt [rstr "deposit", rstr "buy", rstr "add"], ws1,
    curPre, ws0, numG 1, ws0, curSuf, Re.wb]

-- \b(?:send|transfer|give)\s+(?:₦|naira|ngn)?\s*(\d+(?:,\d{3})*(?:\.\d+)?)\s*(?:naira|ngn|₦)?\s*(?:worth\s+of\s+)?(?:btc|bitcoin)\s+(?:to|for)\s+([a-zA-Z0-9\s]+)
def sndP1 : Re :=
  rcat [Re.wb, ralt [rstr "send", rstr "transfer", rstr "give"], ws1, curPre, ws0,
    numG 1, ws0, curSuf, ws0, ropt (rcat [rstr "worth", ws1, rstr "of", ws1]),
    ralt [rstr "btc", rstr "bitcoin"], ws1, ralt [rstr "to", rstr "for"], ws1, alnumSpG 2]

-- \b(?:send|transfer|give)\s+(\d+(?:\.\d+)?)\s*(?:btc|bitcoin)\s+(?:to|for)\s+([a-zA-Z0-9\s]+)
def sndP2 : Re :=
  rcat [Re.wb, ralt [rstr "send", rstr "transfer", rstr "give"], ws1, numSimpleG 1, ws0,
    ralt [rstr "btc", rstr "bitcoin"], ws1, ralt [rstr "to", rstr "for"], ws1, alnumSpG 2]

-- ^/send\s+(\d+(?:\.\d+)?)\s+([a-zA-Z0-9\s]+)
def sndP3 : Re := rcat [Re.bos, rstr "/send", ws1, numSimpleG 1, ws1, alnumSpG 2]

-- \b(?:send|transfer|give)\s+(?:to|for)\s+([a-zA-Z0-9\s]+)\s+(?:₦|naira|ngn)?\s*(\d+(?:,\d{3})*(?:\.\d+)?)\s*(?:naira|ngn|₦)?\b
def sndP4 : Re :=
  rcat [Re.wb, ralt [rstr "send", rstr "transfer", rstr "give"], ws1,
    ralt [rstr "to", rstr "for"], ws1, alnumSpG 1, ws1, curPre, ws0, numG 2, ws0,
    curSuf, Re.wb]

-- \b(?:balance|check|show|what\s+is)\s+(?:my\s+)?(?:balance|wallet|btc|bitcoin)\b
def balP1 : Re :=
  rcat [Re.wb, ralt [rstr "balance", rstr "check", rstr "show",
      rcat [rstr "what", ws1, rstr "is"]], ws1, ropt (rcat [rstr "my", ws1]),
    ralt [rstr "balance", rstr "wallet", rstr "btc", rstr "bitcoin"], Re.wb]

-- \b(?:how\s+much|how\s+many)\s+(?:btc|bitcoin)\s+(?:do\s+i\s+)?(?:have|own)\b
def balP2 : Re :=
  rcat [Re.wb, ralt [rcat [rstr "how", ws1, rstr "much"], rcat [rstr "how", ws1, rstr "many"]],
    ws1, ralt [rstr "btc", rstr "bitcoin"], ws1,
    ropt (rcat [rstr "do", ws1, rstr "i", ws1]), ralt [rstr "have", rstr "own"], Re.wb]

-- ^/balance$
def balP3 : Re := rcat [Re.bos, rstr "/balance", Re.eos]

-- \b(?:my\s+)?(?:balance|wallet|btc|bitcoin)\s+(?:balance|amount|value)\b
def balP4 : Re :=
  rcat [Re.wb, ropt (rcat [rstr "my", ws1]),
    ralt [rstr "balance", rstr "wallet", rstr "btc", rstr "bitcoin"], ws1,
    ralt [rstr "balance", rstr "amount", rstr "value"], Re.wb]

-- \b(?:withdraw|cash\s+out|convert\s+to\s+naira)\s+(?:₦|naira|ngn)?\s*(\d+(?:,\d{3})*(?:\.\d+)?)\s*(?:naira|ngn|₦)?\s*(?:to\s+)?(?:my\s+)?(?:bank|account)\b
def wdrP1 : Re :=
  rcat [Re.wb, ralt [rstr "withdraw", rcat [rstr "cash", ws1, rstr "out"],
      rcat [rstr "convert", ws1, rstr "to", ws1, rstr "naira"]], ws1, curPre, ws0,
    numG 1, ws0, curSuf, ws0, ropt (rcat [rstr "to", ws1]), ropt (rcat [rstr "my", ws1]),
    ralt [rstr "bank", rstr "account"], Re.wb]

-- \b(?:send|transfer)\s+(?:₦|naira|ngn)?\s*(\d+(?:,\d{3})*(?:\.\d+)?)\s*(?:naira|ngn|₦)?\s*(?:to\s+)?(?:my\s+)?(?:bank|account)\b
def wdrP2 : Re :=
  rcat [Re.wb, ralt [rstr "send", rstr "transfer"], ws1, curPre, ws0, numG 1, ws0,
    curSuf, ws0, ropt (rcat [rstr "to", ws1]), ropt (rcat [rstr "my", ws1]),
    ralt [rstr "bank", rstr "account"], Re.wb]

-- ^/withdraw\s+(\d+(?:,\d{3})*(?:\.\d+)?)
def wdrP3 : Re := rcat [Re.bos, rstr "/withdraw", ws1, numG 1]

-- \b(?:i\s+)?(?:want|need)\s+(?:to\s+)?(?:withdraw|cash\s+out)\s+(?:₦|naira|ngn)?\s*(\d+(?:,\d{3})*(?:\.\d+)?)\s*(?:naira|ngn|₦)?\b
def wdrP4 : Re :=
  rcat [Re.wb, ropt (rcat [rstr "i", ws1]), ralt [rstr "want", rstr "need"], ws1,
    ropt (rcat [rstr "to", ws1]), ralt [rstr "withdraw", rcat [rstr "cash", ws1, rstr "out"]],
    ws1, curPre, ws0, numG 1, ws0, curSuf, Re.wb]

-- \b(?:transactions|history|activity|statement|record)\b
def trxP1 : Re :=
  rcat [Re.wb, ralt [rstr "transactions", rstr "history", rstr "activity",
    rstr "statement", rstr "record"], Re.wb]

-- \b(?:show|see|view|get)\s+(?:my\s+)?(?:transactions|history|activity)\b
def trxP2 : Re :=
  rcat [Re.wb, ralt [rstr "show", rstr "see", rstr "view", rstr "get"], ws1,
    ropt (rcat [rstr "my", ws1]), ralt [rstr "transactions", rstr "history", rstr "activity"],
    Re.wb]

-- ^/history$
def trxP3 : Re := rcat [Re.bos, rstr "/history", Re.eos]

-- \b(?:what\s+did\s+i\s+)?(?:spend|send|receive)\b
def trxP4 : Re :=
  rcat [Re.wb, ropt (rcat [rstr "what", ws1, rstr "did", ws1, rstr "i", ws1]),
    ralt [rstr "spend", rstr "send", rstr "receive"], Re.wb]

-- \b(?:receive|get|my\s+address|bitcoin\s+address)\b
def rcvP1 : Re :=
  rcat [Re.wb, ralt [rstr "receive", rstr "get", rcat [rstr "my", ws1, rstr "address"],
    rcat [rstr "bitcoin", ws1, rstr "address"]], Re.wb]

-- ^/receive$
def rcvP2 : Re := rcat [Re.bos, rstr "/receive", Re.eos]

-- \b(?:how\s+to\s+)?(?:receive|get)\s+(?:bitcoin|btc)\b
def rcvP3 : Re :=
  rcat [Re.wb, ropt (rcat [rstr "how", ws1, rstr "to", ws1]),
    ralt [rstr "receive", rstr "get"], ws1, ralt [rstr "bitcoin", rstr "btc"], Re.wb]

-- \b(?:my\s+)?(?:address|wallet\s+address)\b
def rcvP4 : Re :=
  rcat [Re.wb, ropt (rcat [rstr "my", ws1]),
    ralt [rstr "address", rcat [rstr "wallet", ws1, rstr "address"]], Re.wb]

def create_wallet_patterns : List Re := [cwP1, cwP2, cwP3, cwP4, cwP5]
def deposit_patterns : List Re := [depP1, depP2, depP3, depP4, depP5]
def send_patterns : List Re := [sndP1, sndP2, sndP3, sndP4]
def balance_patterns : List Re := [balP1, balP2, balP3, balP4]
def withdraw_patterns : List Re := [wdrP1, wdrP2, wdrP3, wdrP4]
def transactions_patterns : List Re := [trxP1, trxP2, trxP3, trxP4]
def receive_patterns : List Re := [rcvP1, rcvP2, rcvP3, rcvP4]

-- IntentClassifier.intent_patterns, in dict insertion order
def intent_table : List (String × List Re) :=
  [("create_wallet", create_wallet_patterns),
   ("deposit", deposit_patterns),
   ("send", send_patterns),
   ("balance", balance_patterns),
   ("withdraw", withdraw_patterns),
   ("transactions", transactions_patterns),
   ("receive", receive_patterns)]

/-! ### Intent records and parameter extraction -/

/-- The normalized intent dictionary produced by the classifier: the `intent`
key is always present; the remaining keys are present (`some`) exactly when the
Python dict carries them. -/
structure IntentRecord where
  intent : String
  amount : Option PyFloat := none
  currency : Option String := none
  receiver : Option String := none
  message : Option String := none
deriving DecidableEq, Repr

/-- `IntentClassifier._extract_intent_data`.  The `.error` value models the
one uncaught exception point: `match.group(2).strip()` on a non-participating
group (`AttributeError`), and `match.group(1)` on a pattern with no group 1
(`IndexError`) — both land in `_classify_with_regex`'s `except` clause. -/
def extract_intent_data (intent : String) (p : Re) (cs : List Char) (caps : Caps) :
    Except Unit IntentRecord :=
  if intent = "deposit" then
    if 1 ≤ p.numGroups then
      Except.ok { intent := intent, amount := some (extract_amount_opt (groupStr cs caps 1)),
                  currency := some "NGN" }
    else Except.error ()
  else if intent = "send" then
    if 2 ≤ p.numGroups then
      match groupStr cs caps 2 with
      | some r2 =>
        Except.ok { intent := intent, amount := some (extract_amount_opt (groupStr cs caps 1)),
                    receiver := some (pyStrip r2), currency := some "NGN" }
      | none => Except.error ()
    else Except.ok { intent := intent }
  else if intent = "withdraw" then
    if 1 ≤ p.numGroups then
      Except.ok { intent := intent, amount := some (extract_amount_opt (groupStr cs caps 1)),
                  currency := some "NGN" }
    else Except.error ()
  else Except.ok { intent := intent }

/-- `IntentClassifier._classify_with_regex`: iterate the intent table in
declaration order, each pattern list in declaration order, stop at the first
pattern whose search succeeds; extract parameters from that match.  A `none`
(no match anywhere) or an extraction exception gives
`{intent: chat, message: message_lower}`. -/
def classify_with_regex (message : String) : IntentRecord :=
  let cs := message.data
  match intent_table.findSome?
      (fun e => (e.2.findSome? (fun p => (research p cs).map (fun caps => (p, caps)))).map
        (fun pc => extract_intent_data e.1 pc.1 cs pc.2)) with
  | some (Except.ok r) => r
  | some (Except.error _) => { intent := "chat", message := some message }
  | none => { intent := "chat", message := some message }

/-- `IntentClassifier._handle_slash_command`: split on whitespace; the
lower-cased first token selects a command — exact equality for the four bare
commands, a `startswith` test for `/deposit`, `/send`, `/withdraw`. -/
def handle_slash_command (message : String) : IntentRecord :=
  match pySplitL message.data with
  | [] => { intent := "chat", message := some message }
  | cmd :: rest =>
    let command := String.mk (pyLowerL cmd)
    if command = "/create" then { intent := "create_wallet" }
    else if command = "/balance" then { intent := "balance" }
    else if command = "/receive" then { intent := "receive" }
    else if command = "/history" then { intent := "transactions" }
    else if strStarts command "/deposit" && !rest.isEmpty then
      { intent := "deposit", amount := some (extract_amount (String.mk (rest.getD 0 []))),
        currency := some "NGN" }
    else if strStarts command "/send" && decide (2 ≤ rest.length) then
      { intent := "send", amount := some (extract_amount (String.mk (rest.getD 0 []))),
        receiver := some (String.mk (rest.getD 1 [])), currency := some "BTC" }
    else if strStarts command "/withdraw" && !rest.isEmpty then
      { intent := "withdraw", amount := some (extract_amount (String.mk (rest.getD 0 []))),
        currency := some "NGN" }
    else { intent := "chat", message := some message }

/-! ### The remote (Gemini) classifier

The HTTP call and the JSON decoder are outside this repository; they enter the
embedding as an abstract environment.  `_call_gemini_api` is modelled as a
function of the user message embedded in its fixed instruction prompt; a
candidate is modelled by its text content (any missing key of the response
shape raises and is caught to `""` in the source, exactly as a missing
candidate is). -/

/-- A JSON object as far as `_classify_with_gemini` inspects one. -/
structure GeminiJson where
  jintent : Option String := none
  jamount : Option PyFloat := none
  jcurrency : Option String := none
  jreceiver : Option String := none

/-- Outcome of the `requests.post` call: an exception, or a status code with
the candidate texts of the response body. -/
inductive GeminiCall where
  | raised
  | response (status : Nat) (candidates : List String)

/-- Abstract remote environment: network behaviour and `json.loads`. -/
structure GeminiEnv where
  call : String → GeminiCall
  parse : String → Option GeminiJson

/-- `IntentClassifier._call_gemini_api`: status 200 with a candidate gives the
stripped candidate text; everything else (non-200, no candidates, raised
exception) gives `""`. -/
def call_gemini_api (env : GeminiEnv) (message : String) : String :=
  match env.call message with
  | GeminiCall.raised => ""
  | GeminiCall.response status cands =>
    if status = 200 then
      match cands with
      | [] => ""
      | c :: _ => pyStrip c
    else ""

def valid_intents : List String :=
  ["create_wallet", "deposit", "send", "balance", "withdraw", "receive",
   "transactions", "chat"]

-- last index of a character satisfying p (str.rfind)
def lastIdxOf (l : List Char) (p : Char → Bool) : Option Nat :=
  match l.reverse.findIdx? p with
  | some j => some (l.length - 1 - j)
  | none => none

/-- The substring from the first `'\x7b'` to the last `'\x7d'` of the response
text (`response.find`/`response.rfind` and the slice), `none` when the guard
`json_start != -1 and json_end > json_start` fails. -/
def braceExtract (s : String) : Option String :=
  let cs := s.data
  match cs.findIdx? (fun c => c = '{'), lastIdxOf cs (fun c => c = '}') with
  | some js, some je0 =>
    if js < je0 + 1 then some (String.mk ((cs.drop js).take (je0 + 1 - js))) else none
  | _, _ => none

/-- `IntentClassifier._classify_with_gemini`: call the API, extract the brace
substring, decode it, validate the intent against the whitelist; every failure
mode degrades to `{intent: chat, message: message}`. -/
def classify_with_gemini (env : GeminiEnv) (message : String) : IntentRecord :=
  let response := call_gemini_api env message
  if response ≠ "" then
    match braceExtract response with
    | some js =>
      match env.parse js with
      | some obj =>
        match obj.jintent with
        | some it =>
          if valid_intents.contains it then
            { intent := it, amount := obj.jamount, currency := obj.jcurrency,
              receiver := obj.jreceiver }
          else { intent := "chat", message := some message }
        | none => { intent := "chat", message := some message }
      | none => { intent := "chat", message := some message }
    | none => { intent := "chat", message := some message }
  else { intent := "chat", message := some message }

/-- `IntentClassifier.classify_intent`: the four-stage fallback chain.
`gemini_api_key` is the configured credential (`""` when absent, Python
falsy). -/
def classify_intent (env : GeminiEnv) (gemini_api_key : String) (message : String) :
    IntentRecord :=
  let message_lower := pyStrip (pyLower message)
  if strStarts message "/" then handle_slash_command message
  else
    let regex_result := classify_with_regex message_lower
    if regex_result.intent ≠ "chat" then regex_result
    else if gemini_api_key ≠ "" then
      let gemini_result := classify_with_gemini env message
      if gemini_result.intent ≠ "chat" then gemini_result
      else { intent := "chat", message := some message }
    else { intent := "chat", message := some message }

/-- An environment whose remote call always raises and whose decoder always
fails — the degenerate instance used to evaluate concrete inputs. -/
def trivEnv : GeminiEnv :=
  { call := fun _ => GeminiCall.raised, parse := fun _ => none }

/-- An environment answering HTTP 500 with a nonsense body. -/
def failingEnv : GeminiEnv :=
  { call := fun _ => GeminiCall.response 500 ["oops"], parse := fun _ => none }

/-! ### Chat handling (`AIChatbotService`)

`generate_chat_response` is the canned conversational reply of the
classifier; `_handle_greeting` and `_handle_chat_intent` come from
`chatbot/services.py`.  Whether the user owns a `BitcoinWallet` row enters as
a boolean. -/

def bitcoin_basics_reply : String :=
  "Bitcoin is a decentralized digital currency that allows peer-to-peer transactions without banks. It\x27s secure, global, and you control your own money."

def lightning_reply : String :=
  "The Lightning Network enables instant, low-fee Bitcoin payments. It\x27s perfect for small transactions and makes Bitcoin as fast as sending a text message."

def security_reply : String :=
  "Your Bitcoin is secure because you control your private keys. We never store your seed phrase, so only you can access your funds."

def price_reply : String :=
  "Bitcoin prices change in real-time. You can check current rates when you deposit or withdraw. The system automatically converts at the best available rate."

def how_it_works_reply : String :=
  "Bitzapp makes Bitcoin simple! Create a wallet, deposit Naira to get Bitcoin, send Bitcoin instantly, or withdraw to your Nigerian bank account."

def default_chat_reply : String :=
  "I\x27m here to help with your Bitcoin wallet! You can create a wallet, deposit Naira, send Bitcoin, or ask me about Bitcoin basics. What would you like to do?"

/-- `IntentClassifier.generate_chat_response`: keyword containment checks on
the lower-cased message select one of six canned replies. -/
def generate_chat_response (message : String) : String :=
  let ml := pyLower message
  if ["what is bitcoin", "bitcoin", "btc"].any (fun w => strContains ml w) then
    bitcoin_basics_reply
  else if ["lightning", "lightning network"].any (fun w => strContains ml w) then
    lightning_reply
  else if ["secure", "security", "safe"].any (fun w => strContains ml w) then
    security_reply
  else if ["price", "rate", "exchange rate"].any (fun w => strContains ml w) then
    price_reply
  else if ["how does", "how to", "how can"].any (fun w => strContains ml w) then
    how_it_works_reply
  else default_chat_reply

-- AIChatbotService._handle_greeting: the greeting phrase list
def greetings : List String :=
  ["hi", "hello", "hey", "good morning", "good afternoon", "good evening",
   "hi bitzapp", "hello bitzapp", "hey bitzapp", "hi there", "hello there",
   "start", "begin", "get started", "new user", "first time"]

def is_greeting (message : String) : Bool :=
  greetings.any (fun g => strContains (pyStrip (pyLower message)) g)

def wallet_greeting_reply : String :=
  "Hello! Great to see you again.\n\nI see you already have a Bitcoin wallet set up. How can I help you today?\n\nQuick Actions:\n- /balance - Check your Bitcoin balance\n- /send - Send Bitcoin to someone\n- /receive - Get your Bitcoin address\n- /deposit - Add Naira to convert to Bitcoin\n- /help - See all commands\n\nAsk me anything about:\n- Bitcoin and cryptocurrency\n- Using your wallet\n- Security tips\n- Bitzapp features\n\nWhat would you like to do?"

def no_wallet_greeting_reply : String :=
  "Hello! Welcome to Bitzapp.\n\nI\x27m excited to help you get started with Bitcoin.\n\nTo begin your Bitcoin journey:\nType /create to create your Bitcoin wallet and start using Bitcoin right here in WhatsApp.\n\nWhat you\x27ll get:\n- Your own Bitcoin wallet\n- Ability to send and receive Bitcoin\n- Pay bills with Bitcoin\n- Convert Naira to Bitcoin\n- Lightning-fast payments\n\nReady to start?\nType /create to create your wallet now.\n\nNeed help? Just ask me anything about Bitcoin."

/-- `AIChatbotService._handle_greeting`: `none` when the message is not a
greeting (the caller then continues with the normal reply); otherwise the
response branches on whether a `BitcoinWallet` row exists for the user. -/
def handle_greeting (message : String) (hasWallet : Bool) : Option String :=
  if is_greeting message then
    some (if hasWallet then wallet_greeting_reply else no_wallet_greeting_reply)
  else none

/-- `AIChatbotService._handle_chat_intent`: greeting check first, then the
canned conversational reply. -/
def handle_chat_intent (hasWallet : Bool) (message : String) : String :=
  match handle_greeting message hasWallet with
  | some r => r
  | none => generate_chat_response message

/-! ### The command dispatcher (`core/views.py process_command`)

The individual command handlers live behind provider and ORM calls; they
enter the embedding as abstract functions that either return a reply string or
raise (`Except.error`).  `process_command` normalizes the message, selects a
handler by prefix, and catches anything a handler raises. -/

/-- The handler functions imported by `core/views.py`, abstracted over the
user type `U`; `Except.error ()` models a raised exception. -/
structure Handlers (U : Type) where
  create : U → Except Unit String
  importWallet : U → String → Except Unit String
  walletInfo : Except Unit String
  deposit : U → String → Except Unit String
  balance : U → Except Unit String
  send : U → String → Except Unit String
  receive : U → Except Unit String
  paybill : U → String → Except Unit String
  withdraw : U → String → Except Unit String
  lightningInvoice : U → String → Except Unit String
  lightningPay : U → String → Except Unit String
  lightningStatus : U → String → Except Unit String
  lightningHistory : U → Except Unit String
  ask : U → String → Except Unit String
  help : Except Unit String
  unknown : Except Unit String
  aiChat : U → String → Except Unit String

/-- The `if/elif` prefix chain of `process_command`, applied to the already
normalized message. -/
def dispatch_command {U : Type} (H : Handlers U) (user : U) (message : String) :
    Except Unit String :=
  if strStarts message "/create" then H.create user
  else if strStarts message "/import" then H.importWallet user message
  else if strStarts message "/wallet" then H.walletInfo
  else if strStarts message "/save" || strStarts message "/deposit" then H.deposit user message
  else if strStarts message "/balance" then H.balance user
  else if strStarts message "/send" then H.send user message
  else if strStarts message "/receive" then H.receive user
  else if strStarts message "/paybill" then H.paybill user message
  else if strStarts message "/withdraw" then H.withdraw user message
  else if strStarts message "/lightning " then H.lightningInvoice user message
  else if strStarts message "/lightningpay " then H.lightningPay user message
  else if strStarts message "/lightningstatus " then H.lightningStatus user message
  else if strStarts message "/lightninghistory" then H.lightningHistory user
  else if strStarts message "/ask" then H.ask user message
  else if strStarts message "/help" then H.help
  else if strStarts message "/" then H.unknown
  else H.aiChat user message

def generic_error_reply : String :=
  "Sorry, I encountered an error processing your request. Please try again."

/-- `process_command`: strip and lower the message, dispatch, and catch any
exception into the generic retry message. -/
def process_command {U : Type} (H : Handlers U) (user : U) (message : String) : String :=
  match dispatch_command H user (pyLower (pyStrip message)) with
  | Except.ok s => s
  | Except.error _ => generic_error_reply

/-- Every handler only ever returns non-empty reply text (each source handler
returns literal prose); raising is unrestricted. -/
def Handlers.GoodOutputs {U : Type} (H : Handlers U) : Prop :=
  (∀ u s, H.create u = Except.ok s → s ≠ "") ∧
  (∀ u m s, H.importWallet u m = Except.ok s → s ≠ "") ∧
  (∀ s, H.walletInfo = Except.ok s → s ≠ "") ∧
  (∀ u m s, H.deposit u m = Except.ok s → s ≠ "") ∧
  (∀ u s, H.balance u = Except.ok s → s ≠ "") ∧
  (∀ u m s, H.send u m = Except.ok s → s ≠ "") ∧
  (∀ u s, H.receive u = Except.ok s → s ≠ "") ∧
  (∀ u m s, H.paybill u m = Except.ok s → s ≠ "") ∧
  (∀ u m s, H.withdraw u m = Except.ok s → s ≠ "") ∧
  (∀ u m s, H.lightningInvoice u m = Except.ok s → s ≠ "") ∧
  (∀ u m s, H.lightningPay u m = Except.ok s → s ≠ "") ∧
  (∀ u m s, H.lightningStatus u m = Except.ok s → s ≠ "") ∧
  (∀ u s, H.lightningHistory u = Except.ok s → s ≠ "") ∧
  (∀ u m s, H.ask u m = Except.ok s → s ≠ "") ∧
  (∀ s, H.help = Except.ok s → s ≠ "") ∧
  (∀ s, H.unknown = Except.ok s → s ≠ "") ∧
  (∀ u m s, H.aiChat u m = Except.ok s → s ≠ "")

/-- Handlers that all succeed with a fixed reply — used to instantiate the
dispatcher theorems on concrete inputs. -/
def okHandlers : Handlers Unit :=
  { create := fun _ => Except.ok "ok", importWallet := fun _ _ => Except.ok "ok",
    walletInfo := Except.ok "ok", deposit := fun _ _ => Except.ok "ok",
    balance := fun _ => Except.ok "ok", send := fun _ _ => Except.ok "ok",
    receive := fun _ => Except.ok "ok", paybill := fun _ _ => Except.ok "ok",
    withdraw := fun _ _ => Except.ok "ok", lightningInvoice := fun _ _ => Except.ok "ok",
    lightningPay := fun _ _ => Except.ok "ok", lightningStatus := fun _ _ => Except.ok "ok",
    lightningHistory := fun _ => Except.ok "ok", ask := fun _ _ => Except.ok "ok",
    help := Except.ok "ok", unknown := Except.ok "ok",
    aiChat := fun _ _ => Except.ok "ok" }

/-- Handlers whose wallet-creation handler raises — used to instantiate the
exception-catching theorem on a concrete input. -/
def raisingHandlers : Handlers Unit :=
  { okHandlers with create := fun _ => Except.error () }

/-! ## Theorems

Shared helper lemmas first, then one theorem per claim (with witnesses and
counterexamples where required). -/

theorem lowerMap_not_space : ∀ pr ∈ lowerMap, pySpace pr.1 = false ∧ pySpace pr.2 = false := by
  decide

theorem lowerMap_snd_fixed : ∀ pr ∈ lowerMap, lowerMap.find? (fun q => q.1 = pr.2) = none := by
  decide

theorem pySpace_pyToLower (c : Char) : pySpace (pyToLower c) = pySpace c := by
  unfold pyToLower
  cases h : lowerMap.find? (fun p => p.1 = c) with
  | none => rfl
  | some pr =>
    have hm := List.mem_of_find?_eq_some h
    have hp := List.find?_some h
    have h1 : pr.1 = c := by simpa using hp
    have h2 := lowerMap_not_space pr hm
    simp only [Option.map_some', Option.getD_some]
    rw [h2.2, ← h1, h2.1]

theorem pyToLower_idem (c : Char) : pyToLower (pyToLower c) = pyToLower c := by
  cases h : lowerMap.find? (fun p => p.1 = c) with
  | none =>
    have hv : pyToLower c = c := by unfold pyToLower; rw [h]; rfl
    rw [hv]
    exact hv
  | some pr =>
    have hm := List.mem_of_find?_eq_some h
    have hv : pyToLower c = pr.2 := by unfold pyToLower; rw [h]; rfl
    rw [hv]
    unfold pyToLower
    rw [lowerMap_snd_fixed pr hm]
    rfl

theorem pyLowerL_idem (l : List Char) : pyLowerL (pyLowerL l) = pyLowerL l := by
  induction l with
  | nil => rfl
  | cons a t ih =>
    simp only [pyLowerL, List.map_cons] at ih ⊢
    rw [pyToLower_idem, ih]

theorem dropWhile_head_not {p : Char → Bool} :
    ∀ {l : List Char} {c : Char} {t : List Char}, List.dropWhile p l = c :: t → p c = false
  | [], _, _, h => by simp at h
  | a :: u, c, t, h => by
    by_cases hp : p a = true
    · rw [List.dropWhile_cons_of_pos hp] at h
      exact dropWhile_head_not h
    · rw [List.dropWhile_cons_of_neg hp] at h
      cases h
      simpa using hp

theorem dropWhile_dropWhile (p : Char → Bool) (l : List Char) :
    (l.dropWhile p).dropWhile p = l.dropWhile p := by
  cases h : l.dropWhile p with
  | nil => simp
  | cons c t =>
    have := dropWhile_head_not h
    rw [List.dropWhile_cons_of_neg (by simp [this])]

theorem dropWhile_map_comm (f : Char → Char) (p : Char → Bool)
    (hf : ∀ c, p (f c) = p c) (l : List Char) :
    (l.map f).dropWhile p = (l.dropWhile p).map f := by
  induction l with
  | nil => rfl
  | cons a t ih =>
    simp only [List.map_cons, List.dropWhile_cons, hf a]
    by_cases hp : p a = true
    · simp [hp, ih]
    · simp [hp]

theorem pyStripL_lower_comm (l : List Char) :
    pyStripL (pyLowerL l) = pyLowerL (pyStripL l) := by
  show ((((l.map pyToLower).dropWhile pySpace).reverse.dropWhile pySpace)).reverse =
    (((((l.dropWhile pySpace).reverse.dropWhile pySpace)).reverse).map pyToLower)
  rw [dropWhile_map_comm pyToLower pySpace pySpace_pyToLower l]
  rw [← List.map_reverse, dropWhile_map_comm pyToLower pySpace pySpace_pyToLower,
    ← List.map_reverse]

theorem pyStripL_idem (l : List Char) : pyStripL (pyStripL l) = pyStripL l := by
  have hAz : (pyStripL l).dropWhile pySpace = pyStripL l := by
    have hpre : pyStripL l <+: l.dropWhile pySpace := by
      have hsuf : (l.dropWhile pySpace).reverse.dropWhile pySpace <:+
          (l.dropWhile pySpace).reverse := List.dropWhile_suffix _
      have := List.reverse_prefix.mpr hsuf
      simpa [pyStripL] using this
    cases hz : pyStripL l with
    | nil => simp
    | cons c t =>
      rw [hz] at hpre
      obtain ⟨w, hw⟩ := hpre
      cases hy : l.dropWhile pySpace with
      | nil => rw [hy] at hw; simp at hw
      | cons d u =>
        have hd : pySpace d = false := dropWhile_head_not hy
        rw [hy] at hw
        have hcd : c = d := by
          have := congrArg (fun x => x.head?) hw
          simpa using this
        rw [List.dropWhile_cons_of_neg (by simp [hcd, hd])]
  show (((pyStripL l).dropWhile pySpace).reverse.dropWhile pySpace).reverse = pyStripL l
  rw [hAz]
  have hrev : (pyStripL l).reverse = (l.dropWhile pySpace).reverse.dropWhile pySpace := by
    simp [pyStripL]
  rw [hrev, dropWhile_dropWhile]
  simp [pyStripL]

theorem stripLower_idem (s : String) :
    pyLower (pyStrip (pyLower (pyStrip s))) = pyLower (pyStrip s) := by
  apply congrArg String.mk
  show pyLowerL (pyStripL (pyLowerL (pyStripL s.data))) = pyLowerL (pyStripL s.data)
  rw [pyStripL_lower_comm, pyStripL_idem, pyLowerL_idem]

/-- C7: amount extraction strips comma thousands-separators and converts the
remainder with Python `float()`, returning `0.0` instead of raising on any
conversion failure; in particular `"5,000"` and `"5000"` both yield the float
`5000.0`, and the conversion accepts exactly what `float()` accepts —
exponents, digit underscores, surrounding whitespace, `inf`/`nan` — failing
only where `float()` raises. -/
theorem amount_parse_lenient :
    (∀ s : String, extract_amount s =
      extract_amount (String.mk (s.data.filter (fun c => !(c = ','))))) ∧
    (∀ s : String, pyFloatOfChars (s.data.filter (fun c => !(c = ','))) = none →
      extract_amount s = 0) ∧
    (∀ s v, pyFloatOfChars (s.data.filter (fun c => !(c = ','))) = some v →
      extract_amount s = v) ∧
    extract_amount "5,000" = 5000 ∧
    extract_amount "5000" = 5000 ∧
    extract_amount "5,000" = extract_amount "5000" ∧
    extract_amount "1e3" = 1000 ∧
    extract_amount "1_000" = 1000 ∧
    extract_amount "7 " = 7 ∧
    extract_amount "inf" = PyFloat.inf ∧
    extract_amount "nan" = PyFloat.nan ∧
    extract_amount "abc" = 0 := by
  refine ⟨?_, ?_, ?_, by decide, by decide, by decide, by decide, by decide, by decide,
    by decide, by decide, by decide⟩
  · intro s
    have hfix : ((String.mk (s.data.filter (fun c => !(c = ',')))).data).filter
        (fun c => !(c = ',')) = s.data.filter (fun c => !(c = ',')) := by
      show (s.data.filter (fun c => !(c = ','))).filter (fun c => !(c = ',')) = _
      rw [List.filter_filter]
      simp
    unfold extract_amount
    rw [hfix]
  · intro s h
    unfold extract_amount
    rw [h]
    rfl
  · intro s v h
    unfold extract_amount
    rw [h]
    rfl

theorem amount_parse_lenient_witness :
    extract_amount "abc" = 0 ∧
    extract_amount "1e3" = PyFloat.finite 1000 ∧
    extract_amount "5,000" =
      extract_amount (String.mk ("5,000".data.filter (fun c => !(c = ',')))) :=
  ⟨amount_parse_lenient.2.1 "abc" (by decide),
   amount_parse_lenient.2.2.1 "1e3" (PyFloat.finite 1000) (by decide),
   amount_parse_lenient.1 "5,000"⟩

/-- C8 (counterexample): with no credential configured, `"What is Bitcoin?"`
does NOT classify as chat — the balance pattern
`\b(?:balance|check|show|what\s+is)\s+(?:my\s+)?(?:balance|wallet|btc|bitcoin)\b`
matches the lower-cased message, so classification yields `{intent: balance}`. -/
theorem chat_scenario_counterexample :
    classify_intent trivEnv "" "What is Bitcoin?" = { intent := "balance" } ∧
    classify_intent trivEnv "" "What is Bitcoin?" ≠
      { intent := "chat", message := some "what is bitcoin?" } := by
  exact ⟨by decide, by decide⟩

/-- C8 (amended): for the input `"What is Bitcoin?"` the classifier returns
`{intent: balance}` (no remote call is consulted regardless of credential), so
the dispatcher takes the balance path; the canned Bitcoin-explainer is what
`generate_chat_response` returns for this message, i.e. what the chat path
would have produced had the message been classified as chat. -/
theorem chat_scenario_amended (env : GeminiEnv) (key : String) :
    classify_intent env key "What is Bitcoin?" = { intent := "balance" } ∧
    generate_chat_response "what is bitcoin?" = bitcoin_basics_reply :=
  ⟨rfl, rfl⟩

/-- C1: `classify_intent` follows the four-stage short-circuit chain: slash
messages go to the slash parser whose result is returned unconditionally;
otherwise a non-chat regex result is returned; otherwise the remote classifier
is consulted only when a credential is configured and its non-chat result is
returned; otherwise `{intent: chat, message: original}`. -/
theorem classify_follows_fallback_chain (env : GeminiEnv) (key message : String) :
    (strStarts message "/" = true →
      classify_intent env key message = handle_slash_command message) ∧
    (strStarts message "/" = false →
      (classify_with_regex (pyStrip (pyLower message))).intent ≠ "chat" →
      classify_intent env key message = classify_with_regex (pyStrip (pyLower message))) ∧
    (strStarts message "/" = false →
      (classify_with_regex (pyStrip (pyLower message))).intent = "chat" →
      key ≠ "" → (classify_with_gemini env message).intent ≠ "chat" →
      classify_intent env key message = classify_with_gemini env message) ∧
    (strStarts message "/" = false →
      (classify_with_regex (pyStrip (pyLower message))).intent = "chat" →
      (key = "" ∨ (classify_with_gemini env message).intent = "chat") →
      classify_intent env key message = { intent := "chat", message := some message }) := by
  refine ⟨?_, ?_, ?_, ?_⟩
  · intro h
    simp only [classify_intent, h, if_true]
  · intro h hne
    simp only [classify_intent, h, Bool.false_eq_true, if_false]
    rw [if_pos hne]
  · intro h hc hk hg
    simp only [classify_intent, h, Bool.false_eq_true, if_false]
    rw [if_neg (by simp [hc]), if_pos hk, if_pos hg]
  · intro h hc hor
    simp only [classify_intent, h, Bool.false_eq_true, if_false]
    rw [if_neg (by simp [hc])]
    rcases hor with hk | hg
    · rw [if_neg (by simp [hk])]
    · by_cases hk : key ≠ ""
      · rw [if_pos hk, if_neg (by simp [hg])]
      · rw [if_neg hk]

theorem classify_follows_fallback_chain_witness :
    classify_intent trivEnv "" "/balance" = handle_slash_command "/balance" ∧
    classify_intent trivEnv "" "zzz" = { intent := "chat", message := some "zzz" } :=
  ⟨(classify_follows_fallback_chain trivEnv "" "/balance").1 (by decide),
   (classify_follows_fallback_chain trivEnv "" "zzz").2.2.2 (by decide) (by decide)
     (Or.inl rfl)⟩

/-- C4: every failure mode of the remote stage — missing credential, raised
network call, non-200 response, response without a decodable JSON object, or
an intent outside the whitelist — yields `{intent: chat, message: message}`;
all raising operations are caught inside the stage, so nothing propagates past
the resolver. -/
theorem remote_failure_degrades (env : GeminiEnv) (key message : String) :
    (strStarts message "/" = false →
      (classify_with_regex (pyStrip (pyLower message))).intent = "chat" → key = "" →
      classify_intent env key message = { intent := "chat", message := some message }) ∧
    (env.call message = GeminiCall.raised →
      classify_with_gemini env message = { intent := "chat", message := some message }) ∧
    (∀ st cands, env.call message = GeminiCall.response st cands → st ≠ 200 →
      classify_with_gemini env message = { intent := "chat", message := some message }) ∧
    ((∀ js, braceExtract (call_gemini_api env message) = some js → env.parse js = none) →
      classify_with_gemini env message = { intent := "chat", message := some message }) ∧
    (∀ js obj, braceExtract (call_gemini_api env message) = some js →
      env.parse js = some obj →
      (∀ it, obj.jintent = some it → valid_intents.contains it = false) →
      classify_with_gemini env message = { intent := "chat", message := some message }) := by
  refine ⟨?_, ?_, ?_, ?_, ?_⟩
  · intro h hc hk
    simp only [classify_intent, h, Bool.false_eq_true, if_false]
    rw [if_neg (by simp [hc]), if_neg (by simp [hk])]
  · intro h
    simp [classify_with_gemini, call_gemini_api, h]
  · intro st cands h hst
    simp [classify_with_gemini, call_gemini_api, h, hst]
  · intro hp
    by_cases hr : call_gemini_api env message = ""
    · simp [classify_with_gemini, hr]
    · cases hb : braceExtract (call_gemini_api env message) with
      | none => simp [classify_with_gemini, hr, hb]
      | some js => simp [classify_with_gemini, hr, hb, hp js hb]
  · intro js obj hb hparse hint
    have hr : call_gemini_api env message ≠ "" := by
      intro h0
      rw [h0] at hb
      simp [braceExtract] at hb
    cases ho : obj.jintent with
    | none => simp [classify_with_gemini, hr, hb, hparse, ho]
    | some it =>
      simp [classify_with_gemini, hr, hb, hparse, ho]
      simpa using hint it ho


theorem remote_failure_degrades_witness :
    classify_with_gemini failingEnv "hello" = { intent := "chat", message := some "hello" } ∧
    classify_with_gemini trivEnv "hello" = { intent := "chat", message := some "hello" } ∧
    classify_intent trivEnv "" "zzap" = { intent := "chat", message := some "zzap" } :=
  ⟨(remote_failure_degrades failingEnv "" "hello").2.2.1 500 ["oops"] rfl (by decide),
   (remote_failure_degrades trivEnv "" "hello").2.1 rfl,
   (remote_failure_degrades trivEnv "" "zzap").1 (by decide) (by decide) rfl⟩

/-- C2: the regex classifier tries intents in declaration order (deposit being
declared before send) and an earlier-declared intent wins: whenever no
`create_wallet` pattern matches and some `deposit` pattern matches, the result
intent is `deposit` regardless of which later intents also match; the crafted
message containing both a deposit cue and a send cue resolves to deposit with
the deposit pattern's captured amount. -/
theorem regex_priority_order :
    (∀ m : String,
      create_wallet_patterns.all (fun p => (research p m.data).isNone) = true →
      deposit_patterns.any (fun p => (research p m.data).isSome) = true →
      (classify_with_regex m).intent = "deposit") ∧
    classify_with_regex "deposit 5000 and send 2000 btc to john" =
      { intent := "deposit", amount := some 5000, currency := some "NGN" } ∧
    deposit_patterns.any
      (fun p => (research p "deposit 5000 and send 2000 btc to john".data).isSome) = true ∧
    send_patterns.any
      (fun p => (research p "deposit 5000 and send 2000 btc to john".data).isSome) = true := by
  refine ⟨?_, by decide, by decide, by decide⟩
  intro m hcw hdep
  have hall : ∀ p ∈ deposit_patterns, Re.numGroups p = 1 := by decide
  have hcw2 : create_wallet_patterns.findSome?
      (fun p => (research p m.data).map (fun caps => (p, caps))) = none := by
    rw [List.findSome?_eq_none_iff]
    intro p hp
    have h1 := List.all_eq_true.mp hcw p hp
    rw [Option.isNone_iff_eq_none] at h1
    rw [h1]
    rfl
  obtain ⟨p0, hp0, hsome⟩ : ∃ p, p ∈ deposit_patterns ∧ (research p m.data).isSome := by
    simpa using hdep
  cases hk : deposit_patterns.findSome?
      (fun p => (research p m.data).map (fun caps => (p, caps))) with
  | none =>
    exfalso
    rw [List.findSome?_eq_none_iff] at hk
    have h2 := hk p0 hp0
    cases hres : research p0 m.data with
    | none => rw [hres] at hsome; simp at hsome
    | some caps => rw [hres] at h2; simp at h2
  | some pc =>
    obtain ⟨a, ha, hfa⟩ := List.exists_of_findSome?_eq_some hk
    obtain ⟨caps, hcaps, hpair⟩ := Option.map_eq_some'.mp hfa
    have hg := hall a ha
    unfold classify_with_regex
    simp only [intent_table, List.findSome?_cons, hcw2, Option.map_none', hk, Option.map_some']
    rw [← hpair]
    unfold extract_intent_data
    rw [if_pos rfl, if_pos (by rw [hg])]

theorem regex_priority_order_witness :
    (classify_with_regex "add 5").intent = "deposit" :=
  regex_priority_order.1 "add 5" (by decide) (by decide)

/-- C6: parameter extraction from a regex match is determined by the intent:
`deposit`/`withdraw` parse capture group 1 as the amount with currency `NGN`;
`send` (whose patterns all capture exactly two groups) parses group 1 as the
amount and the trimmed group 2 as the receiver; the no-parameter intents carry
the intent alone; and when a hypothetical send variant had fewer than two
groups, the parameter fields would be omitted. -/
theorem regex_capture_extraction (p : Re) (cs : List Char) (caps : Caps) :
    (1 ≤ p.numGroups →
      extract_intent_data "deposit" p cs caps =
        Except.ok { intent := "deposit",
                    amount := some (extract_amount_opt (groupStr cs caps 1)),
                    currency := some "NGN" }) ∧
    (1 ≤ p.numGroups →
      extract_intent_data "withdraw" p cs caps =
        Except.ok { intent := "withdraw",
                    amount := some (extract_amount_opt (groupStr cs caps 1)),
                    currency := some "NGN" }) ∧
    (∀ r2, 2 ≤ p.numGroups → groupStr cs caps 2 = some r2 →
      extract_intent_data "send" p cs caps =
        Except.ok { intent := "send",
                    amount := some (extract_amount_opt (groupStr cs caps 1)),
                    receiver := some (pyStrip r2), currency := some "NGN" }) ∧
    (p.numGroups < 2 →
      extract_intent_data "send" p cs caps = Except.ok { intent := "send" }) ∧
    (∀ name, name ∈ ["create_wallet", "balance", "transactions", "receive"] →
      extract_intent_data name p cs caps = Except.ok { intent := name }) ∧
    send_patterns.all (fun q => q.numGroups = 2) = true := by
  refine ⟨?_, ?_, ?_, ?_, ?_, by decide⟩
  · intro h
    unfold extract_intent_data
    rw [if_pos rfl, if_pos h]
  · intro h
    unfold extract_intent_data
    rw [if_neg (by decide), if_neg (by decide), if_pos rfl, if_pos h]
  · intro r2 h h2
    unfold extract_intent_data
    rw [if_neg (by decide), if_pos rfl, if_pos h, h2]
  · intro h
    unfold extract_intent_data
    rw [if_neg (by decide), if_pos rfl, if_neg (by omega)]
  · intro name hname
    fin_cases hname <;> rfl

theorem regex_capture_extraction_witness :
    extract_intent_data "send" sndP2 "send 1 btc to bob".data
        [(2, 14, 17), (1, 5, 6)] =
      Except.ok { intent := "send", amount := some 1, receiver := some "bob",
                  currency := some "NGN" } ∧
    extract_intent_data "deposit" depP1 "add 7".data [(1, 4, 5)] =
      Except.ok { intent := "deposit", amount := some 7, currency := some "NGN" } := by
  constructor
  · have h := (regex_capture_extraction sndP2 "send 1 btc to bob".data
      [(2, 14, 17), (1, 5, 6)]).2.2.1 "bob" (by decide) (by decide)
    rw [h]
    exact congrArg Except.ok (by decide)
  · have h := (regex_capture_extraction depP1 "add 7".data [(1, 4, 5)]).1 (by decide)
    rw [h]
    exact congrArg Except.ok (by decide)

theorem both_prefix_absurd {s a b : String} (ha : strStarts s a = true)
    (hb : strStarts s b = true) (hlen : a.data.length ≤ b.data.length)
    (hnab : a.data.isPrefixOf b.data = false) : False := by
  rw [strStarts] at ha hb
  rw [List.isPrefixOf_iff_prefix] at ha hb
  have h := List.prefix_of_prefix_length_le ha hb hlen
  rw [← List.isPrefixOf_iff_prefix] at h
  rw [h] at hnab
  cases hnab

theorem ne_of_starts (c pre lit : String) (h : strStarts c pre = true)
    (hlit : strStarts lit pre = false) : c ≠ lit := by
  intro he
  rw [he, hlit] at h
  cases h

/-- C3 (counterexample): the slash parser selects `/deposit`, `/send`,
`/withdraw` by `startswith` on the first token, not by exact match, so the
slash message `"/deposita 5"` — "any other slash message" under the claim —
does not yield chat but a deposit record. -/
theorem slash_parser_counterexample :
    classify_intent trivEnv "" "/deposita 5" =
      { intent := "deposit", amount := some 5, currency := some "NGN" } ∧
    classify_intent trivEnv "" "/deposita 5" ≠
      { intent := "chat", message := some "/deposita 5" } :=
  ⟨by decide, by decide⟩

/-- C3 (amended): the slash parser splits on whitespace and the case-folded
first token selects the command — `/create`, `/balance`, `/receive`,
`/history` by exact equality; deposit, send and withdraw whenever the first
token merely STARTS WITH `/deposit`, `/send`, `/withdraw` (with the required
argument count); every remaining slash message yields
`{intent: chat, message: original}`. -/
theorem slash_parser_amended (env : GeminiEnv) (key message : String)
    (cmd : List Char) (rest : List (List Char))
    (hsplit : pySplitL message.data = cmd :: rest)
    (hslash : strStarts message "/" = true)
    (command : String) (hcmd : command = String.mk (pyLowerL cmd)) :
    (command = "/create" → classify_intent env key message = { intent := "create_wallet" }) ∧
    (command = "/balance" → classify_intent env key message = { intent := "balance" }) ∧
    (command = "/receive" → classify_intent env key message = { intent := "receive" }) ∧
    (command = "/history" → classify_intent env key message = { intent := "transactions" }) ∧
    (strStarts command "/deposit" = true → rest ≠ [] →
      classify_intent env key message =
        { intent := "deposit", amount := some (extract_amount (String.mk (rest.getD 0 []))),
          currency := some "NGN" }) ∧
    (strStarts command "/send" = true → 2 ≤ rest.length →
      classify_intent env key message =
        { intent := "send", amount := some (extract_amount (String.mk (rest.getD 0 []))),
          receiver := some (String.mk (rest.getD 1 [])), currency := some "BTC" }) ∧
    (strStarts command "/withdraw" = true → rest ≠ [] →
      classify_intent env key message =
        { intent := "withdraw", amount := some (extract_amount (String.mk (rest.getD 0 []))),
          currency := some "NGN" }) ∧
    (command ≠ "/create" → command ≠ "/balance" → command ≠ "/receive" →
      command ≠ "/history" →
      (strStarts command "/deposit" = false ∨ rest = []) →
      (strStarts command "/send" = false ∨ rest.length < 2) →
      (strStarts command "/withdraw" = false ∨ rest = []) →
      classify_intent env key message = { intent := "chat", message := some message }) := by
  have hred : classify_intent env key message =
      (if command = "/create" then ({ intent := "create_wallet" } : IntentRecord)
      else if command = "/balance" then { intent := "balance" }
      else if command = "/receive" then { intent := "receive" }
      else if command = "/history" then { intent := "transactions" }
      else if strStarts command "/deposit" && !rest.isEmpty then
        { intent := "deposit", amount := some (extract_amount (String.mk (rest.getD 0 []))),
          currency := some "NGN" }
      else if strStarts command "/send" && decide (2 ≤ rest.length) then
        { intent := "send", amount := some (extract_amount (String.mk (rest.getD 0 []))),
          receiver := some (String.mk (rest.getD 1 [])), currency := some "BTC" }
      else if strStarts command "/withdraw" && !rest.isEmpty then
        { intent := "withdraw", amount := some (extract_amount (String.mk (rest.getD 0 []))),
          currency := some "NGN" }
      else { intent := "chat", message := some message }) := by
    simp only [classify_intent, hslash, if_true]
    simp only [handle_slash_command, hsplit]
    rw [← hcmd]
  refine ⟨?_, ?_, ?_, ?_, ?_, ?_, ?_, ?_⟩
  · intro hc
    rw [hred, if_pos hc]
  · intro hc
    have h1 : command ≠ "/create" := by rw [hc]; decide
    rw [hred, if_neg h1, if_pos hc]
  · intro hc
    have h1 : command ≠ "/create" := by rw [hc]; decide
    have h2 : command ≠ "/balance" := by rw [hc]; decide
    rw [hred, if_neg h1, if_neg h2, if_pos hc]
  · intro hc
    have h1 : command ≠ "/create" := by rw [hc]; decide
    have h2 : command ≠ "/balance" := by rw [hc]; decide
    have h3 : command ≠ "/receive" := by rw [hc]; decide
    rw [hred, if_neg h1, if_neg h2, if_neg h3, if_pos hc]
  · intro hd hne
    have h1 := ne_of_starts command "/deposit" "/create" hd (by decide)
    have h2 := ne_of_starts command "/deposit" "/balance" hd (by decide)
    have h3 := ne_of_starts command "/deposit" "/receive" hd (by decide)
    have h4 := ne_of_starts command "/deposit" "/history" hd (by decide)
    have h5 : (strStarts command "/deposit" && !rest.isEmpty) = true := by
      cases rest with
      | nil => exact absurd rfl hne
      | cons r0 rtail => rw [hd]; rfl
    rw [hred, if_neg h1, if_neg h2, if_neg h3, if_neg h4, if_pos h5]
  · intro hs hlen
    have h1 := ne_of_starts command "/send" "/create" hs (by decide)
    have h2 := ne_of_starts command "/send" "/balance" hs (by decide)
    have h3 := ne_of_starts command "/send" "/receive" hs (by decide)
    have h4 := ne_of_starts command "/send" "/history" hs (by decide)
    have h5 : ¬((strStarts command "/deposit" && !rest.isEmpty) = true) := by
      intro habs
      exact both_prefix_absurd hs (Bool.and_eq_true_iff.mp habs).1 (by decide) (by decide)
    have h6 : (strStarts command "/send" && decide (2 ≤ rest.length)) = true := by
      rw [hs, decide_eq_true hlen]
      rfl
    rw [hred, if_neg h1, if_neg h2, if_neg h3, if_neg h4, if_neg h5, if_pos h6]
  · intro hw hne
    have h1 := ne_of_starts command "/withdraw" "/create" hw (by decide)
    have h2 := ne_of_starts command "/withdraw" "/balance" hw (by decide)
    have h3 := ne_of_starts command "/withdraw" "/receive" hw (by decide)
    have h4 := ne_of_starts command "/withdraw" "/history" hw (by decide)
    have h5 : ¬((strStarts command "/deposit" && !rest.isEmpty) = true) := by
      intro habs
      exact both_prefix_absurd (Bool.and_eq_true_iff.mp habs).1 hw (by decide) (by decide)
    have h6 : ¬((strStarts command "/send" && decide (2 ≤ rest.length)) = true) := by
      intro habs
      exact both_prefix_absurd (Bool.and_eq_true_iff.mp habs).1 hw (by decide) (by decide)
    have h7 : (strStarts command "/withdraw" && !rest.isEmpty) = true := by
      cases rest with
      | nil => exact absurd rfl hne
      | cons r0 rtail => rw [hw]; rfl
    rw [hred, if_neg h1, if_neg h2, if_neg h3, if_neg h4, if_neg h5, if_neg h6, if_pos h7]
  · intro h1 h2 h3 h4 hdep hsnd hwdr
    have h5 : ¬((strStarts command "/deposit" && !rest.isEmpty) = true) := by
      rcases hdep with hd | hr
      · simp [hd]
      · simp [hr]
    have h6 : ¬((strStarts command "/send" && decide (2 ≤ rest.length)) = true) := by
      rcases hsnd with hs | hr
      · simp [hs]
      · simp
        intro _
        omega
    have h7 : ¬((strStarts command "/withdraw" && !rest.isEmpty) = true) := by
      rcases hwdr with hw | hr
      · simp [hw]
      · simp [hr]
    rw [hred, if_neg h1, if_neg h2, if_neg h3, if_neg h4, if_neg h5, if_neg h6, if_neg h7]

theorem slash_parser_amended_witness :
    classify_intent trivEnv "" "/deposita 5" =
      { intent := "deposit", amount := some 5, currency := some "NGN" } ∧
    classify_intent trivEnv "" "/zap" = { intent := "chat", message := some "/zap" } := by
  constructor
  · have h := (slash_parser_amended trivEnv "" "/deposita 5" "/deposita".data ["5".data]
      (by decide) (by decide) "/deposita" (by decide)).2.2.2.2.1 (by decide) (by decide)
    rw [h]
    decide
  · have h := (slash_parser_amended trivEnv "" "/zap" "/zap".data []
      (by decide) (by decide) "/zap" (by decide)).2.2.2.2.2.2.2
      (by decide) (by decide) (by decide) (by decide) (Or.inl (by decide))
      (Or.inl (by decide)) (Or.inl (by decide))
    exact h

theorem generate_reply_mem (m : String) :
    generate_chat_response m ∈
      [bitcoin_basics_reply, lightning_reply, security_reply, price_reply,
       how_it_works_reply, default_chat_reply] := by
  unfold generate_chat_response
  dsimp only
  split_ifs <;> simp

/-- C9: for a chat-classified message, greeting detection overrides the
generic conversational reply — a greeting message gets a greeting response
that branches on wallet ownership (welcome-back with quick actions when a
wallet exists, create-wallet onboarding when none exists), and the greeting
responses differ from each other and from every possible generic reply. -/
theorem greeting_overrides_chat (hasWallet : Bool) (message : String) :
    (is_greeting message = true →
      handle_chat_intent hasWallet message =
        (if hasWallet then wallet_greeting_reply else no_wallet_greeting_reply)) ∧
    (is_greeting message = false →
      handle_chat_intent hasWallet message = generate_chat_response message) ∧
    wallet_greeting_reply ≠ no_wallet_greeting_reply ∧
    (∀ m2 : String, wallet_greeting_reply ≠ generate_chat_response m2 ∧
      no_wallet_greeting_reply ≠ generate_chat_response m2) := by
  refine ⟨?_, ?_, by decide, ?_⟩
  · intro h
    simp [handle_chat_intent, handle_greeting, h]
  · intro h
    simp [handle_chat_intent, handle_greeting, h]
  · intro m2
    have hm := generate_reply_mem m2
    simp only [List.mem_cons, List.not_mem_nil, or_false] at hm
    rcases hm with h | h | h | h | h | h <;> rw [h] <;> exact ⟨by decide, by decide⟩

theorem greeting_overrides_chat_witness :
    handle_chat_intent true "hello" = wallet_greeting_reply ∧
    handle_chat_intent false "hello" = no_wallet_greeting_reply := by
  constructor
  · have h := (greeting_overrides_chat true "hello").1 (by decide)
    simpa using h
  · have h := (greeting_overrides_chat false "hello").1 (by decide)
    simpa using h

theorem dispatch_ok_nonempty {U : Type} (H : Handlers U) (hG : H.GoodOutputs)
    (u : U) (m s : String) (hd : dispatch_command H u m = Except.ok s) : s ≠ "" := by
  obtain ⟨g1, g2, g3, g4, g5, g6, g7, g8, g9, g10, g11, g12, g13, g14, g15, g16, g17⟩ := hG
  unfold dispatch_command at hd
  by_cases c1 : strStarts m "/create" = true
  · rw [if_pos c1] at hd
    exact g1 u s hd
  · rw [if_neg c1] at hd
    by_cases c2 : strStarts m "/import" = true
    · rw [if_pos c2] at hd
      exact g2 u _ s hd
    · rw [if_neg c2] at hd
      by_cases c3 : strStarts m "/wallet" = true
      · rw [if_pos c3] at hd
        exact g3 s hd
      · rw [if_neg c3] at hd
        by_cases c4 : (strStarts m "/save" || strStarts m "/deposit") = true
        · rw [if_pos c4] at hd
          exact g4 u _ s hd
        · rw [if_neg c4] at hd
          by_cases c5 : strStarts m "/balance" = true
          · rw [if_pos c5] at hd
            exact g5 u s hd
          · rw [if_neg c5] at hd
            by_cases c6 : strStarts m "/send" = true
            · rw [if_pos c6] at hd
              exact g6 u _ s hd
            · rw [if_neg c6] at hd
              by_cases c7 : strStarts m "/receive" = true
              · rw [if_pos c7] at hd
                exact g7 u s hd
              · rw [if_neg c7] at hd
                by_cases c8 : strStarts m "/paybill" = true
                · rw [if_pos c8] at hd
                  exact g8 u _ s hd
                · rw [if_neg c8] at hd
                  by_cases c9 : strStarts m "/withdraw" = true
                  · rw [if_pos c9] at hd
                    exact g9 u _ s hd
                  · rw [if_neg c9] at hd
                    by_cases c10 : strStarts m "/lightning " = true
                    · rw [if_pos c10] at hd
                      exact g10 u _ s hd
                    · rw [if_neg c10] at hd
                      by_cases c11 : strStarts m "/lightningpay " = true
                      · rw [if_pos c11] at hd
                        exact g11 u _ s hd
                      · rw [if_neg c11] at hd
                        by_cases c12 : strStarts m "/lightningstatus " = true
                        · rw [if_pos c12] at hd
                          exact g12 u _ s hd
                        · rw [if_neg c12] at hd
                          by_cases c13 : strStarts m "/lightninghistory" = true
                          · rw [if_pos c13] at hd
                            exact g13 u s hd
                          · rw [if_neg c13] at hd
                            by_cases c14 : strStarts m "/ask" = true
                            · rw [if_pos c14] at hd
                              exact g14 u _ s hd
                            · rw [if_neg c14] at hd
                              by_cases c15 : strStarts m "/help" = true
                              · rw [if_pos c15] at hd
                                exact g15 s hd
                              · rw [if_neg c15] at hd
                                by_cases c16 : strStarts m "/" = true
                                · rw [if_pos c16] at hd
                                  exact g16 s hd
                                · rw [if_neg c16] at hd
                                  exact g17 u _ s hd

/-- C5: the command dispatcher catches any exception a handler raises and
maps it to the generic retry message; when the selected handler returns
normally its reply is passed through, and under the (source-true) assumption
that every handler returns non-empty text, the dispatcher's reply is never
empty — in particular an exception never escapes and the reply is never the
empty string. -/
theorem dispatcher_total_reply {U : Type} (H : Handlers U) (u : U) (message : String) :
    (dispatch_command H u (pyLower (pyStrip message)) = Except.error () →
      process_command H u message = generic_error_reply) ∧
    (∀ s, dispatch_command H u (pyLower (pyStrip message)) = Except.ok s →
      process_command H u message = s) ∧
    generic_error_reply ≠ "" ∧
    (H.GoodOutputs → process_command H u message ≠ "") := by
  refine ⟨?_, ?_, by decide, ?_⟩
  · intro h
    unfold process_command
    rw [h]
  · intro s h
    unfold process_command
    rw [h]
  · intro hG
    unfold process_command
    cases hd : dispatch_command H u (pyLower (pyStrip message)) with
    | error e => exact (by decide : generic_error_reply ≠ "")
    | ok s =>
      show s ≠ ""
      exact dispatch_ok_nonempty H hG u _ s hd

theorem dispatcher_total_reply_witness :
    process_command raisingHandlers () "/create" = generic_error_reply ∧
    process_command okHandlers () "hello" = "ok" ∧
    process_command okHandlers () "hello" ≠ "" := by
  have hG : okHandlers.GoodOutputs :=
    ⟨fun _ s h => by cases h; decide, fun _ _ s h => by cases h; decide,
     fun s h => by cases h; decide, fun _ _ s h => by cases h; decide,
     fun _ s h => by cases h; decide, fun _ _ s h => by cases h; decide,
     fun _ s h => by cases h; decide, fun _ _ s h => by cases h; decide,
     fun _ _ s h => by cases h; decide, fun _ _ s h => by cases h; decide,
     fun _ _ s h => by cases h; decide, fun _ _ s h => by cases h; decide,
     fun _ s h => by cases h; decide, fun _ _ s h => by cases h; decide,
     fun s h => by cases h; decide, fun s h => by cases h; decide,
     fun _ _ s h => by cases h; decide⟩
  refine ⟨?_, ?_, ?_⟩
  · exact (dispatcher_total_reply raisingHandlers () "/create").1 rfl
  · exact (dispatcher_total_reply okHandlers () "hello").2.1 "ok" rfl
  · exact (dispatcher_total_reply okHandlers () "hello").2.2.2 hG

/-- C10 (implicit): `process_command` strips and lower-cases the whole message
before any matching, so running it on the raw message and on the normalized
message is the same; the text a handler receives (e.g. the `/send` arguments
carrying the receiver address) is the normalized, already fully lower-cased
form of what the user typed. -/
theorem dispatch_normalizes_message {U : Type} (H : Handlers U) (u : U) (message : String) :
    process_command H u message = process_command H u (pyLower (pyStrip message)) ∧
    (strStarts (pyLower (pyStrip message)) "/send" = true →
      dispatch_command H u (pyLower (pyStrip message)) =
        H.send u (pyLower (pyStrip message))) ∧
    pyLower (pyLower (pyStrip message)) = pyLower (pyStrip message) := by
  refine ⟨?_, ?_, ?_⟩
  · unfold process_command
    rw [stripLower_idem]
  · intro hs
    have h1 : ¬(strStarts (pyLower (pyStrip message)) "/create" = true) := fun habs =>
      both_prefix_absurd hs habs (by decide) (by decide)
    have h2 : ¬(strStarts (pyLower (pyStrip message)) "/import" = true) := fun habs =>
      both_prefix_absurd hs habs (by decide) (by decide)
    have h3 : ¬(strStarts (pyLower (pyStrip message)) "/wallet" = true) := fun habs =>
      both_prefix_absurd hs habs (by decide) (by decide)
    have h4 : ¬((strStarts (pyLower (pyStrip message)) "/save" ||
        strStarts (pyLower (pyStrip message)) "/deposit") = true) := by
      intro habs
      rcases Bool.or_eq_true_iff.mp habs with hb | hb
      · exact both_prefix_absurd hs hb (by decide) (by decide)
      · exact both_prefix_absurd hs hb (by decide) (by decide)
    have h5 : ¬(strStarts (pyLower (pyStrip message)) "/balance" = true) := fun habs =>
      both_prefix_absurd hs habs (by decide) (by decide)
    unfold dispatch_command
    rw [if_neg h1, if_neg h2, if_neg h3, if_neg h4, if_neg h5, if_pos hs]
  · apply congrArg String.mk
    exact pyLowerL_idem _

theorem dispatch_normalizes_message_witness :
    dispatch_command okHandlers () (pyLower (pyStrip "/SEND 1 bob")) =
      okHandlers.send () (pyLower (pyStrip "/SEND 1 bob")) ∧
    process_command okHandlers () " HELLO " = process_command okHandlers () "hello" := by
  constructor
  · exact (dispatch_normalizes_message okHandlers () "/SEND 1 bob").2.1 (by decide)
  · have h := (dispatch_normalizes_message okHandlers () " HELLO ").1
    rw [show pyLower (pyStrip " HELLO ") = "hello" by decide] at h
    exact h
